import Mathlib

/-!
Verification of the PureShell core (src/pureshell/__init__.py) against its
specification. We shallowly embed the data model and operations of the
library: the `PureShellMethod` descriptor (resolution at attribute access,
the call-time wrapper, the synchronous and asynchronous execution paths),
the exception classes and their bases, the two declaration-time structural
checks (`Ruleset.__init_subclass__` and `StatefulEntity.__init_subclass__`),
and `StatefulEntity.__init__`.

Modelling conventions:
- Python attribute dictionaries become association lists `List (String × Value)`.
- A rules provider (a `Ruleset` class or instance) is a named table from
  function names to pure functions; Python `getattr` on it is table lookup.
- `None` valued optional slots (`_rules`, `_instance_rules`) become `Option`.
- A pure function carries an `isAsync` flag modelling the runtime test
  `asyncio.iscoroutinefunction`; for an asynchronous function, `run` gives
  the value its coroutine eventually resolves to, so the model describes the
  observable outcome once the await completes.
- Exception *messages* are abstracted to their identifying components (the
  names interpolated into the f-strings); the exception *classes* and their
  base-class structure are modelled exactly.
- The repository requires Python >= 3.10 (it uses `X | Y` annotations
  evaluated at definition time), where `staticmethod` objects are callable.
-/

namespace PureShell

/-- Runtime values held in entity attributes and passed to pure functions. -/
inductive Value where
  | vnone
  | vint (n : Int)
  | vstr (s : String)
  | vbool (b : Bool)
  | vlist (xs : List Value)
deriving Repr, BEq

/-- A pure function as stored on a rules provider.  `isAsync` models the
runtime test `asyncio.iscoroutinefunction(actual_func_resolved)` (lines
163 and 192); for an async function `run` is the value its coroutine
resolves to after being awaited. -/
structure PureFn where
  isAsync : Bool
  run : List Value → Value

/-- A rules provider: a `Ruleset` class or instance.  `name` models the
`rules_name` computed at lines 132-136 (`__name__` of a class or of the
instance's class); `table` models its attribute namespace restricted to
the pure functions it exposes. -/
structure RulesProvider where
  name : String
  table : List (String × PureFn)

/-- Python `getattr(rules_source, name)` on a provider: first matching
entry of its attribute table, `none` when an `AttributeError` would be
raised (line 130-131). -/
def RulesProvider.getattr (p : RulesProvider) (nm : String) : Option PureFn :=
  match p.table.find? (fun kv => kv.1 == nm) with
  | some kv => some kv.2
  | none => none

/-- The structured content of the exceptions the library raises.
Each constructor corresponds to one `raise` site of the source; payloads
are the names interpolated into the exception message. -/
inductive PSError where
  /-- `RulesetProviderError` raised at line 128 (class name of the
  instance, name of the unresolved shell method). -/
  | rulesetProviderError (instanceClsName : String) (methodName : String)
  /-- `PureFunctionError` raised at line 144 (missing function name,
  provider name, class name of the instance). -/
  | pureFunctionError (funcName : String) (providerName : String)
      (instanceClsName : String)
  /-- `LiveAttributeError` raised at line 158 (missing attribute name,
  class name of the instance), constructor at lines 41-45. -/
  | liveAttributeError (attrName : String) (instanceClsName : String)
  /-- builtin `TypeError` raised by `Ruleset.__init_subclass__` at
  lines 257-260 (class name, offending member name). -/
  | nonStaticMethodTypeError (clsName : String) (memberName : String)
  /-- builtin `TypeError` raised by `StatefulEntity.__init_subclass__` at
  lines 318-322 (class name, offending member name). -/
  | implementedMethodTypeError (clsName : String) (memberName : String)
  /-- builtin `IndexError` from `self.live_attr_names[0]` when the
  attribute tuple is empty (lines 172, 182). -/
  | indexError
deriving Repr, DecidableEq

/-- A stateful entity instance.  `attrs` is its instance attribute
dictionary; `instanceRules` is `_instance_rules` (with `none` for Python
`None`, which the base class always provides at line 267); `classRules` is
the type-level `_rules` slot (line 266). -/
structure Entity where
  className : String
  attrs : List (String × Value)
  instanceRules : Option RulesProvider
  classRules : Option RulesProvider

/-- Lookup in an attribute association list (Python attribute read). -/
def lookupAttr : List (String × Value) → String → Option Value
  | [], _ => none
  | (k, w) :: rest, nm => if k == nm then some w else lookupAttr rest nm

/-- Update of an attribute association list (Python `setattr`): replaces
the existing binding in place, otherwise appends a new one. -/
def setAttrList : List (String × Value) → String → Value → List (String × Value)
  | [], nm, v => [(nm, v)]
  | (k, w) :: rest, nm, v =>
    if k == nm then (k, v) :: rest else (k, w) :: setAttrList rest nm v

/-- `getattr(instance, name, _sentinel)` on the entity, `none` playing the
role of the sentinel (line 156). -/
def Entity.getattr (e : Entity) (nm : String) : Option Value :=
  lookupAttr e.attrs nm

/-- `setattr(instance, name, value)` (lines 171-173, 182). -/
def Entity.setattr (e : Entity) (nm : String) (v : Value) : Entity :=
  { e with attrs := setAttrList e.attrs nm v }

/-- The `func_or_name` argument of `PureShellMethod.__init__`: either a
direct callable or a name string to resolve at access time. -/
inductive FuncOrName where
  | func (f : PureFn)
  | name (s : String)

/-- The `PureShellMethod` descriptor state set up by `__init__`
(lines 56-77): the target, the (already tuple-normalised) live attribute
names, and the `mutates` flag. -/
structure PureShellMethod where
  func_or_name : FuncOrName
  live_attr_names : List String
  mutates : Bool

/-- The tuple normalisation of `live_attr_names` in
`PureShellMethod.__init__` (lines 74-76): a bare string becomes a
one-element tuple. -/
def normalizeLiveAttrNames : String ⊕ List String → List String
  | Sum.inl s => [s]
  | Sum.inr t => t

/-- The two-tier provider resolution inside `__get__` (lines 107-118):
the instance-level `_instance_rules` when it is set and not `None`,
else the class-level `_rules` when set and not `None`, else none.
(Both attributes always exist on a `StatefulEntity`, with class-level
default `None`, so the `hasattr` guards reduce to the `None` tests.) -/
def resolveRules (e : Entity) : Option RulesProvider :=
  match e.instanceRules with
  | some p => some p
  | none => e.classRules

/-- Resolution of the target function in `__get__` (lines 104-146): a
direct callable is used as is; a name is looked up on the resolved rules
source, raising `RulesetProviderError` when no provider is available
(lines 120-128) and `PureFunctionError` when the provider lacks the name
(lines 129-144). -/
def resolveFunc (e : Entity) (m : PureShellMethod) : Except PSError PureFn :=
  match m.func_or_name with
  | FuncOrName.func f => Except.ok f
  | FuncOrName.name nm =>
    match resolveRules e with
    | none => Except.error (PSError.rulesetProviderError e.className nm)
    | some src =>
      match src.getattr nm with
      | some f => Except.ok f
      | none =>
        Except.error (PSError.pureFunctionError nm src.name e.className)

/-- The live-data gathering loop of `wrapper` (lines 154-159): attribute
values in declaration order, failing with `LiveAttributeError` at the
first missing name. -/
def gatherLive (e : Entity) : List String → Except PSError (List Value)
  | [] => Except.ok []
  | nm :: rest =>
    match e.getattr nm with
    | none => Except.error (PSError.liveAttributeError nm e.className)
    | some v =>
      match gatherLive e rest with
      | Except.error err => Except.error err
      | Except.ok vs => Except.ok (v :: vs)

/-- The synchronous execution path of `wrapper` (lines 179-184): call the
function on live values followed by caller arguments; if `mutates`,
overwrite `live_attr_names[0]` with the result and return `None`,
otherwise return the result. -/
def syncPath (e : Entity) (m : PureShellMethod) (f : PureFn)
    (liveVals args : List Value) : Except PSError (Entity × Value) :=
  let result := f.run (liveVals ++ args)
  if m.mutates then
    match m.live_attr_names[0]? with
    | some fld => Except.ok (e.setattr fld result, Value.vnone)
    | none => Except.error PSError.indexError
  else
    Except.ok (e, result)

/-- The body of `async_runner` (lines 167-175) as observed once its
await resolves: identical shape to the synchronous path, applied to the
awaited value. -/
def asyncRunner (e : Entity) (m : PureShellMethod) (f : PureFn)
    (liveVals args : List Value) : Except PSError (Entity × Value) :=
  let val := f.run (liveVals ++ args)
  if m.mutates then
    match m.live_attr_names[0]? with
    | some fld => Except.ok (e.setattr fld val, Value.vnone)
    | none => Except.error PSError.indexError
  else
    Except.ok (e, val)

/-- One call of the `wrapper` closure (lines 148-202) with an already
resolved function, as the caller observes it (awaiting first when the
function is asynchronous): gather live attributes, then run the async or
the sync branch according to `iscoroutinefunction`. -/
def wrapperCall (e : Entity) (m : PureShellMethod) (f : PureFn)
    (args : List Value) : Except PSError (Entity × Value) :=
  match gatherLive e m.live_attr_names with
  | Except.error err => Except.error err
  | Except.ok liveVals =>
    if f.isAsync then asyncRunner e m f liveVals args
    else syncPath e m f liveVals args

/-- A full bound-method call `entity.method(args)`: attribute access runs
`__get__` (which resolves the function and raises resolution errors
before any wrapper exists), then the returned wrapper is called. -/
def invoke (e : Entity) (m : PureShellMethod) (args : List Value) :
    Except PSError (Entity × Value) :=
  match resolveFunc e m with
  | Except.error err => Except.error err
  | Except.ok f => wrapperCall e m f args

/-- The Python exception classes involved in the library's raises,
builtins included. -/
inductive ExcClass where
  | exceptionCls
  | attributeErrorCls
  | typeErrorCls
  | lookupErrorCls
  | indexErrorCls
  | pureShellErrorCls
  | rulesetProviderErrorCls
  | pureFunctionErrorCls
  | liveAttributeErrorCls
deriving Repr, DecidableEq

/-- Direct base classes: `PureShellError(Exception)` (line 20), and
`RulesetProviderError`, `PureFunctionError`, `LiveAttributeError` each
declared as `(PureShellError, AttributeError)` (lines 24, 31, 38);
builtin bases per the Python exception hierarchy. -/
def directBases : ExcClass → List ExcClass
  | ExcClass.exceptionCls => []
  | ExcClass.attributeErrorCls => [ExcClass.exceptionCls]
  | ExcClass.typeErrorCls => [ExcClass.exceptionCls]
  | ExcClass.lookupErrorCls => [ExcClass.exceptionCls]
  | ExcClass.indexErrorCls => [ExcClass.lookupErrorCls]
  | ExcClass.pureShellErrorCls => [ExcClass.exceptionCls]
  | ExcClass.rulesetProviderErrorCls =>
      [ExcClass.pureShellErrorCls, ExcClass.attributeErrorCls]
  | ExcClass.pureFunctionErrorCls =>
      [ExcClass.pureShellErrorCls, ExcClass.attributeErrorCls]
  | ExcClass.liveAttributeErrorCls =>
      [ExcClass.pureShellErrorCls, ExcClass.attributeErrorCls]

/-- Reflexive-transitive closure of `directBases`, fueled (the hierarchy
has depth at most 3, so fuel 8 is exact). -/
def subclassOfFuel : Nat → ExcClass → ExcClass → Bool
  | 0, _, _ => false
  | n + 1, c, d => c == d || (directBases c).any (fun b => subclassOfFuel n b d)

/-- Python `issubclass c d`, equivalently: an exception of class `c` is
caught by an `except d` handler. -/
def subclassOf (c d : ExcClass) : Bool :=
  subclassOfFuel 8 c d

/-- The Python class of the exception each `PSError` models. -/
def PSError.pythonClass : PSError → ExcClass
  | PSError.rulesetProviderError _ _ => ExcClass.rulesetProviderErrorCls
  | PSError.pureFunctionError _ _ _ => ExcClass.pureFunctionErrorCls
  | PSError.liveAttributeError _ _ => ExcClass.liveAttributeErrorCls
  | PSError.nonStaticMethodTypeError _ _ => ExcClass.typeErrorCls
  | PSError.implementedMethodTypeError _ _ => ExcClass.typeErrorCls
  | PSError.indexError => ExcClass.indexErrorCls

/-- Classification of a class-body member value by the predicates the two
`__init_subclass__` hooks test: `isinstance(value, staticmethod)`,
`isinstance(value, PureShellMethod)`, the `_is_side_effect` tag,
`isinstance(value, property)`, `callable(value)`. -/
inductive MemberValue where
  /-- a `staticmethod`-wrapped function -/
  | staticMethodVal
  /-- an undecorated `def` (a plain function, instance method to be) -/
  | plainFunctionVal
  /-- a `PureShellMethod` descriptor left by `@shell_method` -/
  | pureShellMethodVal
  /-- a function tagged by `@side_effect_method` (line 242 sets
  `_is_side_effect = True` on it) -/
  | sideEffectVal
  /-- a `property` object -/
  | propertyVal
  /-- a non-callable data member -/
  | dataVal
deriving Repr, DecidableEq

/-- Python `callable(value)` (on Python >= 3.10, where `staticmethod`
objects are callable; descriptor and property objects are not). -/
def isCallableMember : MemberValue → Bool
  | MemberValue.staticMethodVal => true
  | MemberValue.plainFunctionVal => true
  | MemberValue.pureShellMethodVal => false
  | MemberValue.sideEffectVal => true
  | MemberValue.propertyVal => false
  | MemberValue.dataVal => false

/-- Python `isinstance(value, staticmethod)`. -/
def isStaticmethodInstance : MemberValue → Bool
  | MemberValue.staticMethodVal => true
  | _ => false

/-- Python `isinstance(value, PureShellMethod)`. -/
def isPureShellMethodInstance : MemberValue → Bool
  | MemberValue.pureShellMethodVal => true
  | _ => false

/-- Python `hasattr(value, "_is_side_effect") and value._is_side_effect`
(lines 239-243, 308). -/
def hasSideEffectTag : MemberValue → Bool
  | MemberValue.sideEffectVal => true
  | _ => false

/-- Python `isinstance(value, property)`. -/
def isPropertyInstance : MemberValue → Bool
  | MemberValue.propertyVal => true
  | _ => false

/-- Python `s.startswith(pre)`, computed on the character lists so that
it evaluates by structural recursion. -/
def strStartsWith (s pre : String) : Bool :=
  pre.toList.isPrefixOf s.toList

/-- The loop of `Ruleset.__init_subclass__` (lines 249-260) over
`vars(cls)`: skip dunder names; any callable that is not a `staticmethod`
instance raises `TypeError` naming the class and the member. -/
def rulesetCheckMembers (clsName : String) :
    List (String × MemberValue) → Except PSError Unit
  | [] => Except.ok ()
  | (nm, v) :: rest =>
    if strStartsWith nm "__" then rulesetCheckMembers clsName rest
    else if isCallableMember v && !isStaticmethodInstance v then
      Except.error (PSError.nonStaticMethodTypeError clsName nm)
    else rulesetCheckMembers clsName rest

/-- The name-skipping condition of `StatefulEntity.__init_subclass__`
(lines 296-301): dunder names, names starting with an underscore, and the
`_rules` / `_instance_rules` slots. -/
def reservedEntityName (nm : String) : Bool :=
  strStartsWith nm "__" || strStartsWith nm "_"
    || nm == "_rules" || nm == "_instance_rules"

/-- The loop of `StatefulEntity.__init_subclass__` (lines 292-322) over
`vars(cls)`: skip reserved names; skip `PureShellMethod` descriptors,
side-effect-tagged functions and properties; any remaining callable
raises `TypeError` naming the class and the member. -/
def entityCheckMembers (clsName : String) :
    List (String × MemberValue) → Except PSError Unit
  | [] => Except.ok ()
  | (nm, v) :: rest =>
    if reservedEntityName nm then
      entityCheckMembers clsName rest
    else if isPureShellMethodInstance v then entityCheckMembers clsName rest
    else if hasSideEffectTag v then entityCheckMembers clsName rest
    else if isPropertyInstance v then entityCheckMembers clsName rest
    else if isCallableMember v then
      Except.error (PSError.implementedMethodTypeError clsName nm)
    else entityCheckMembers clsName rest

/-- A successfully declared class (the hook ran without raising); only
then can the class, and hence any instance of it, exist. -/
structure DeclaredClass where
  clsName : String
  members : List (String × MemberValue)

/-- Declaring a `Ruleset` subclass: `__init_subclass__` runs during the
class statement, so a raise aborts the declaration and no class object
(and a fortiori no instance) is produced. -/
def declareRulesetSubclass (clsName : String)
    (members : List (String × MemberValue)) : Except PSError DeclaredClass :=
  match rulesetCheckMembers clsName members with
  | Except.error err => Except.error err
  | Except.ok _ => Except.ok ⟨clsName, members⟩

/-- Declaring a `StatefulEntity` subclass, likewise. -/
def declareEntitySubclass (clsName : String)
    (members : List (String × MemberValue)) : Except PSError DeclaredClass :=
  match entityCheckMembers clsName members with
  | Except.error err => Except.error err
  | Except.ok _ => Except.ok ⟨clsName, members⟩

/-- `StatefulEntity.__init__` (lines 269-290) on a fresh instance: set one
attribute per `initial_state` item (skipped when the dict is `None` or
empty, which the fold over the empty list also models); install
`ruleset_instance` as `_instance_rules` when given (a plain object is
always truthy), else leave the slot at the class-level default `None`
(the `hasattr` guard at line 289 is true since the base class defines the
slot, so the `elif` assigns nothing). -/
def statefulEntityInit (clsName : String) (classRules : Option RulesProvider)
    (initial_state : Option (List (String × Value)))
    (ruleset_instance : Option RulesProvider) : Entity :=
  let e0 : Entity :=
    { className := clsName, attrs := [], instanceRules := none,
      classRules := classRules }
  let e1 :=
    match initial_state with
    | some kvs => kvs.foldl (fun acc kv => acc.setattr kv.1 kv.2) e0
    | none => e0
  match ruleset_instance with
  | some r => { e1 with instanceRules := some r }
  | none => e1

/-! ### Helper lemmas -/

/-- Reading back the attribute just written. -/
theorem lookupAttr_setAttrList_self (l : List (String × Value)) (nm : String)
    (v : Value) : lookupAttr (setAttrList l nm v) nm = some v := by
  induction l with
  | nil => simp [setAttrList, lookupAttr]
  | cons kv rest ih =>
    by_cases h : kv.1 = nm
    · simp [setAttrList, lookupAttr, h]
    · simpa [setAttrList, lookupAttr, h] using ih

/-- Writing one attribute leaves every other attribute unchanged. -/
theorem lookupAttr_setAttrList_ne (l : List (String × Value)) (nm nm2 : String)
    (v : Value) (h : nm2 ≠ nm) :
    lookupAttr (setAttrList l nm v) nm2 = lookupAttr l nm2 := by
  induction l with
  | nil => simp [setAttrList, lookupAttr, Ne.symm h]
  | cons kv rest ih =>
    obtain ⟨k, w⟩ := kv
    by_cases hk : k = nm
    · have hk2 : ¬k = nm2 := by rw [hk]; exact fun hh => h hh.symm
      subst hk
      simp [setAttrList, lookupAttr, hk2]
    · by_cases hk2 : k = nm2
      · subst hk2
        simp [setAttrList, lookupAttr, hk]
      · simp [setAttrList, lookupAttr, hk, hk2, ih]

/-- `setattr` touches only the attribute dictionary, leaving the class
name and both provider slots unchanged; other attributes keep their
values. -/
theorem Entity.getattr_setattr_ne (e : Entity) (nm nm2 : String) (v : Value)
    (h : nm2 ≠ nm) : (e.setattr nm v).getattr nm2 = e.getattr nm2 :=
  lookupAttr_setAttrList_ne e.attrs nm nm2 v h

/-- `gatherLive` fails with the first missing name whenever some declared
name is missing on the entity. -/
theorem gatherLive_missing (e : Entity) (names : List String)
    (h : ∃ nm ∈ names, e.getattr nm = none) :
    ∃ nm, nm ∈ names ∧ e.getattr nm = none ∧
      gatherLive e names = Except.error (PSError.liveAttributeError nm e.className) := by
  induction names with
  | nil => simp at h
  | cons n0 rest ih =>
    cases hn0 : e.getattr n0 with
    | none => exact ⟨n0, List.mem_cons_self n0 rest, hn0, by simp [gatherLive, hn0]⟩
    | some v =>
      have hrest : ∃ nm ∈ rest, e.getattr nm = none := by
        rcases h with ⟨nm, hmem, hnone⟩
        rcases List.mem_cons.mp hmem with rfl | hmem2
        · rw [hn0] at hnone; cases hnone
        · exact ⟨nm, hmem2, hnone⟩
      rcases ih hrest with ⟨nm, hmem, hnone, herr⟩
      exact ⟨nm, List.mem_cons_of_mem n0 hmem, hnone, by simp [gatherLive, hn0, herr]⟩

/-- The async runner performs, after its await resolves, exactly the
mutate-or-return step of the synchronous path. -/
theorem asyncRunner_eq_syncPath (e : Entity) (m : PureShellMethod)
    (f : PureFn) (liveVals args : List Value) :
    asyncRunner e m f liveVals args = syncPath e m f liveVals args := rfl

/-! ### Concrete fixtures used by witnesses and counterexamples -/

/-- A pure function returning the constant 2. -/
def constTwoFn : PureFn := ⟨false, fun _ => Value.vint 2⟩

/-- A pure function returning the constant 3. -/
def constThreeFn : PureFn := ⟨false, fun _ => Value.vint 3⟩

/-- An instance-level provider defining only `g`. -/
def instProv : RulesProvider := ⟨"InstRules", [("g", constTwoFn)]⟩

/-- A type-level provider that also defines `g` (differently) and `h`. -/
def typeProv : RulesProvider :=
  ⟨"TypeRules", [("g", constThreeFn), ("h", constThreeFn)]⟩

/-- An entity carrying both providers. -/
def bothTiersEntity : Entity := ⟨"E", [("x", Value.vint 1)], some instProv, some typeProv⟩

/-- An entity with no provider at either tier and no attributes. -/
def bareEntity : Entity := ⟨"E", [], none, none⟩

/-- A name-based, non-mutating binding on field `x` targeting `f`. -/
def fxBinding : PureShellMethod := ⟨FuncOrName.name "f", ["x"], false⟩

/-- A name-based, non-mutating binding on field `x` targeting `g`. -/
def gxBinding : PureShellMethod := ⟨FuncOrName.name "g", ["x"], false⟩

/-! ### Claims -/

/-- C1: when an entity's instance-level provider is set, name-based
resolution looks the name up only on that provider: a name present there
resolves to that provider's function whatever the type-level default
holds, and a name absent there fails with the missing-pure-function
error, never falling back to the type-level default. -/
theorem c1_instance_override_resolution (e : Entity) (P : RulesProvider)
    (nm : String) (lan : List String) (mu : Bool)
    (hP : e.instanceRules = some P) :
    (∀ f, P.getattr nm = some f →
      resolveFunc e ⟨FuncOrName.name nm, lan, mu⟩ = Except.ok f) ∧
    (P.getattr nm = none →
      resolveFunc e ⟨FuncOrName.name nm, lan, mu⟩ =
        Except.error (PSError.pureFunctionError nm P.name e.className)) := by
  constructor
  · intro f hf
    simp [resolveFunc, resolveRules, hP, hf]
  · intro hf
    simp [resolveFunc, resolveRules, hP, hf]

/-- Witness for C1: on an entity whose instance provider defines `g` as
the constant-2 function while the type-level provider also defines `g`,
resolution returns the instance provider's function; and resolving the
name `h`, defined only on the type-level provider, fails with
missing-pure-function naming the instance provider. -/
theorem c1_instance_override_resolution_witness :
    resolveFunc bothTiersEntity ⟨FuncOrName.name "g", ["x"], false⟩ =
      Except.ok constTwoFn ∧
    resolveFunc bothTiersEntity ⟨FuncOrName.name "h", ["x"], false⟩ =
      Except.error (PSError.pureFunctionError "h" "InstRules" "E") :=
  ⟨(c1_instance_override_resolution bothTiersEntity instProv "g" ["x"] false
      rfl).1 constTwoFn rfl,
   (c1_instance_override_resolution bothTiersEntity instProv "h" ["x"] false
      rfl).2 rfl⟩

/-- C8: on an entity with neither an instance-level nor a type-level
provider, name-based resolution always fails with exactly the
missing-provider error (so never missing-pure-function and never a
silently produced function). -/
theorem c8_missing_provider (e : Entity) (nm : String) (lan : List String)
    (mu : Bool) (h1 : e.instanceRules = none) (h2 : e.classRules = none) :
    resolveFunc e ⟨FuncOrName.name nm, lan, mu⟩ =
      Except.error (PSError.rulesetProviderError e.className nm) := by
  simp [resolveFunc, resolveRules, h1, h2]

/-- Witness for C8 at a concrete provider-less entity. -/
theorem c8_missing_provider_witness :
    resolveFunc bareEntity ⟨FuncOrName.name "f", ["x"], false⟩ =
      Except.error (PSError.rulesetProviderError "E" "f") :=
  c8_missing_provider bareEntity "f" ["x"] false rfl rfl

/-- C9: an asynchronous pure function produces, once its suspension
resolves, exactly the outcome of a synchronous pure function with the
same underlying behaviour, for any binding (any field list and either
value of the mutates flag) — both at the wrapper level and for a full
bound call with a direct-callable binding. -/
theorem c9_async_sync_same_semantics :
    (∀ (e : Entity) (m : PureShellMethod) (run : List Value → Value)
        (args : List Value),
      wrapperCall e m ⟨true, run⟩ args = wrapperCall e m ⟨false, run⟩ args) ∧
    (∀ (e : Entity) (lan : List String) (mu : Bool)
        (run : List Value → Value) (args : List Value),
      invoke e ⟨FuncOrName.func ⟨true, run⟩, lan, mu⟩ args =
        invoke e ⟨FuncOrName.func ⟨false, run⟩, lan, mu⟩ args) := by
  have hw : ∀ (e : Entity) (m : PureShellMethod) (run : List Value → Value)
      (args : List Value),
      wrapperCall e m ⟨true, run⟩ args = wrapperCall e m ⟨false, run⟩ args := by
    intro e m run args
    unfold wrapperCall
    cases gatherLive e m.live_attr_names with
    | error err => rfl
    | ok liveVals => rfl
  exact ⟨hw, fun e lan mu run args => by
    simpa [invoke, resolveFunc] using hw e ⟨FuncOrName.func ⟨true, run⟩, lan, mu⟩ run args⟩

/-- C4 counterexample: the claim that all five error kinds are distinct
kinds deriving from one common PureShell base fails — the
non-static-member and unauthorized-logic failures are both raised as the
same builtin `TypeError`, which does not derive from `PureShellError`, so
an `except PureShellError` handler does not catch them and the two kinds
are not distinguishable by class. -/
theorem c4_common_base_counterexample :
    PSError.pythonClass (PSError.nonStaticMethodTypeError "R" "m") =
      PSError.pythonClass (PSError.implementedMethodTypeError "E" "n") ∧
    subclassOf (PSError.pythonClass (PSError.nonStaticMethodTypeError "R" "m"))
      ExcClass.pureShellErrorCls = false := by
  decide

/-- C4 amended: the three runtime error kinds (missing-provider,
missing-pure-function, missing-live-attribute) are pairwise distinct
exception classes that all derive from the common base `PureShellError`
(and from `AttributeError`), so a caller can catch all three via that
single base; the two declaration-time kinds (non-static-member,
unauthorized-logic) are both raised as the builtin `TypeError`, which does
not derive from `PureShellError`; the only base common to all five is the
universal `Exception`. -/
theorem c4_error_taxonomy_amended :
    (subclassOf ExcClass.rulesetProviderErrorCls ExcClass.pureShellErrorCls = true ∧
     subclassOf ExcClass.pureFunctionErrorCls ExcClass.pureShellErrorCls = true ∧
     subclassOf ExcClass.liveAttributeErrorCls ExcClass.pureShellErrorCls = true) ∧
    (subclassOf ExcClass.rulesetProviderErrorCls ExcClass.attributeErrorCls = true ∧
     subclassOf ExcClass.pureFunctionErrorCls ExcClass.attributeErrorCls = true ∧
     subclassOf ExcClass.liveAttributeErrorCls ExcClass.attributeErrorCls = true) ∧
    (ExcClass.rulesetProviderErrorCls ≠ ExcClass.pureFunctionErrorCls ∧
     ExcClass.rulesetProviderErrorCls ≠ ExcClass.liveAttributeErrorCls ∧
     ExcClass.pureFunctionErrorCls ≠ ExcClass.liveAttributeErrorCls) ∧
    (PSError.pythonClass (PSError.nonStaticMethodTypeError "R" "m") =
       ExcClass.typeErrorCls ∧
     PSError.pythonClass (PSError.implementedMethodTypeError "E" "n") =
       ExcClass.typeErrorCls ∧
     subclassOf ExcClass.typeErrorCls ExcClass.pureShellErrorCls = false) ∧
    (subclassOf ExcClass.rulesetProviderErrorCls ExcClass.exceptionCls = true ∧
     subclassOf ExcClass.pureFunctionErrorCls ExcClass.exceptionCls = true ∧
     subclassOf ExcClass.liveAttributeErrorCls ExcClass.exceptionCls = true ∧
     subclassOf ExcClass.typeErrorCls ExcClass.exceptionCls = true) := by
  decide

/-- C5 counterexample: the field check is not performed when resolution
fails.  On an entity with no provider at either tier and without the
declared field `x`, the bound call fails with the missing-provider error
raised at attribute access — not with the missing-live-attribute error
the claim requires the (allegedly unconditional) field check to raise. -/
theorem c5_field_check_counterexample :
    invoke bareEntity fxBinding [] =
      Except.error (PSError.rulesetProviderError "E" "f") ∧
    PSError.rulesetProviderError "E" "f" ≠
      PSError.liveAttributeError "x" "E" := by
  exact ⟨rfl, by decide⟩

/-- C5 amended: declared field names are checked per call against the
entity's current attributes, and a missing name fails the call with the
missing-live-attribute error naming that field and the entity's class —
but only once resolution of the target function has succeeded; when
resolution fails, the resolution error is raised at attribute access and
the field check is never reached. -/
theorem c5_live_attribute_check (e : Entity) (m : PureShellMethod)
    (args : List Value) :
    (∀ err, resolveFunc e m = Except.error err →
      invoke e m args = Except.error err) ∧
    (∀ f, resolveFunc e m = Except.ok f →
      (∃ nm ∈ m.live_attr_names, e.getattr nm = none) →
      ∃ nm, nm ∈ m.live_attr_names ∧ e.getattr nm = none ∧
        invoke e m args =
          Except.error (PSError.liveAttributeError nm e.className)) := by
  constructor
  · intro err herr
    simp [invoke, herr]
  · intro f hf hmiss
    rcases gatherLive_missing e m.live_attr_names hmiss with ⟨nm, hmem, hnone, herr⟩
    exact ⟨nm, hmem, hnone, by simp [invoke, hf, wrapperCall, herr]⟩

/-- An entity whose instance provider defines the binding target `f`, but
which lacks the declared field `x`. -/
def missingFieldEntity : Entity :=
  ⟨"E", [("y", Value.vint 4)], some ⟨"InstRules", [("f", constTwoFn)]⟩, none⟩

/-- Witness for C5: with resolution succeeding and field `x` absent, the
call fails with the missing-live-attribute error for `x`. -/
theorem c5_live_attribute_check_witness :
    ∃ nm, nm ∈ fxBinding.live_attr_names ∧
      missingFieldEntity.getattr nm = none ∧
      invoke missingFieldEntity fxBinding [] =
        Except.error (PSError.liveAttributeError nm missingFieldEntity.className) :=
  (c5_live_attribute_check missingFieldEntity fxBinding []).2 constTwoFn rfl
    ⟨"x", by simp [fxBinding], rfl⟩

/-- C2: a successful call of a binding declared with `mutates = true`
returns the `None` value to the caller whatever the pure function
returned, overwrites exactly the first declared field with the pure
function's return value, and leaves every other attribute — and the class
name and both provider slots — of the entity unchanged. -/
theorem c2_mutating_binding (e : Entity) (m : PureShellMethod)
    (args : List Value) (e2 : Entity) (r : Value) (fld : String)
    (rest : List String) (hm : m.mutates = true)
    (hf : m.live_attr_names = fld :: rest)
    (hcall : invoke e m args = Except.ok (e2, r)) :
    r = Value.vnone ∧
    (∃ f lv, resolveFunc e m = Except.ok f ∧
      gatherLive e m.live_attr_names = Except.ok lv ∧
      e2 = e.setattr fld (f.run (lv ++ args))) ∧
    (∀ nm, nm ≠ fld → e2.getattr nm = e.getattr nm) ∧
    e2.className = e.className ∧ e2.instanceRules = e.instanceRules ∧
    e2.classRules = e.classRules := by
  cases hres : resolveFunc e m with
  | error err => simp [invoke, hres] at hcall
  | ok f =>
    cases hg : gatherLive e m.live_attr_names with
    | error err => simp [invoke, hres, wrapperCall, hg] at hcall
    | ok lv =>
      rw [hf] at hg
      simp [invoke, hres, wrapperCall, hf, hg, asyncRunner_eq_syncPath,
        syncPath, hm] at hcall
      obtain ⟨he2, hr⟩ := hcall
      subst he2; subst hr
      refine ⟨rfl, ⟨f, lv, rfl, rfl, rfl⟩, ?_, rfl, rfl, rfl⟩
      intro nm hnm
      exact Entity.getattr_setattr_ne e fld nm (f.run (lv ++ args)) hnm

/-- A mutating binding on field `x` targeting `f`. -/
def mutBinding : PureShellMethod := ⟨FuncOrName.name "f", ["x"], true⟩

/-- An entity with fields `x`, `y` and an instance provider defining `f`
as the constant-2 function. -/
def mutEntity : Entity :=
  ⟨"E", [("x", Value.vint 1), ("y", Value.vint 5)],
    some ⟨"InstRules", [("f", constTwoFn)]⟩, none⟩

/-- Witness for C2: the concrete mutating call succeeds, returns `None`,
rewrites `x` to the function's value 2, and leaves `y` at 5. -/
theorem c2_mutating_binding_witness :
    Value.vnone = Value.vnone ∧
    (∃ f lv, resolveFunc mutEntity mutBinding = Except.ok f ∧
      gatherLive mutEntity mutBinding.live_attr_names = Except.ok lv ∧
      mutEntity.setattr "x" (Value.vint 2) =
        mutEntity.setattr "x" (PureFn.run f (lv ++ [])) ∧
      (mutEntity.setattr "x" (Value.vint 2)).getattr "y" = some (Value.vint 5)) :=
  have h := c2_mutating_binding mutEntity mutBinding []
    (mutEntity.setattr "x" (Value.vint 2)) Value.vnone "x" [] rfl rfl rfl
  ⟨h.1.symm ▸ rfl,
   by
    rcases h.2.1 with ⟨f, lv, hresf, hglv, he2⟩
    exact ⟨f, lv, hresf, hglv, he2, rfl⟩⟩

/-- C3: a successful call of a binding declared with `mutates = false`
returns the pure function's return value unchanged and leaves the entity
exactly as it was (no field writes). -/
theorem c3_nonmutating_binding (e : Entity) (m : PureShellMethod)
    (args : List Value) (e2 : Entity) (r : Value) (hm : m.mutates = false)
    (hcall : invoke e m args = Except.ok (e2, r)) :
    e2 = e ∧
    ∃ f lv, resolveFunc e m = Except.ok f ∧
      gatherLive e m.live_attr_names = Except.ok lv ∧
      r = f.run (lv ++ args) := by
  cases hres : resolveFunc e m with
  | error err => simp [invoke, hres] at hcall
  | ok f =>
    cases hg : gatherLive e m.live_attr_names with
    | error err => simp [invoke, hres, wrapperCall, hg] at hcall
    | ok lv =>
      simp [invoke, hres, wrapperCall, hg, asyncRunner_eq_syncPath,
        syncPath, hm] at hcall
      obtain ⟨he2, hr⟩ := hcall
      subst he2; subst hr
      exact ⟨rfl, f, lv, rfl, rfl, rfl⟩

/-- Witness for C3: the concrete non-mutating call leaves the entity
untouched and returns the pure function's value 2. -/
theorem c3_nonmutating_binding_witness :
    bothTiersEntity = bothTiersEntity ∧
    ∃ f lv, resolveFunc bothTiersEntity gxBinding = Except.ok f ∧
      gatherLive bothTiersEntity gxBinding.live_attr_names = Except.ok lv ∧
      Value.vint 2 = PureFn.run f (lv ++ []) :=
  c3_nonmutating_binding bothTiersEntity gxBinding [] bothTiersEntity
    (Value.vint 2) rfl rfl

/-- A class-body member that makes `Ruleset.__init_subclass__` raise: a
non-dunder name bound to a callable that is not a `staticmethod`
instance (a receiver-dependent callable). -/
def rulesetViolating (nm : String) (v : MemberValue) : Bool :=
  !strStartsWith nm "__" && (isCallableMember v && !isStaticmethodInstance v)

/-- A class-body member that makes `StatefulEntity.__init_subclass__`
raise: a non-reserved name bound to a callable that is neither a
`PureShellMethod` descriptor, nor side-effect-tagged, nor a property. -/
def entityViolating (nm : String) (v : MemberValue) : Bool :=
  !reservedEntityName nm && !isPureShellMethodInstance v
    && !hasSideEffectTag v && !isPropertyInstance v && isCallableMember v

/-- The Ruleset check fails, with the error naming the class and some
receiver-dependent callable member, whenever such a member exists. -/
theorem rulesetCheckMembers_error (clsName : String)
    (members : List (String × MemberValue))
    (h : ∃ p ∈ members, rulesetViolating p.1 p.2 = true) :
    ∃ nm, rulesetCheckMembers clsName members =
        Except.error (PSError.nonStaticMethodTypeError clsName nm) ∧
      ∃ v, (nm, v) ∈ members ∧ rulesetViolating nm v = true := by
  induction members with
  | nil => simp at h
  | cons p rest ih =>
    obtain ⟨nm0, v0⟩ := p
    by_cases hd : strStartsWith nm0 "__"
    · have h2 : ∃ p ∈ rest, rulesetViolating p.1 p.2 = true := by
        rcases h with ⟨p, hmem, hviol⟩
        rcases List.mem_cons.mp hmem with rfl | hm2
        · exfalso; simp [rulesetViolating, hd] at hviol
        · exact ⟨p, hm2, hviol⟩
      rcases ih h2 with ⟨nm, herr, v, hmem, hviol⟩
      exact ⟨nm, by simp [rulesetCheckMembers, hd, herr],
        v, List.mem_cons_of_mem _ hmem, hviol⟩
    · by_cases hc : isCallableMember v0 && !isStaticmethodInstance v0
      · refine ⟨nm0, by simp [rulesetCheckMembers, hd, hc],
          v0, List.mem_cons_self _ _, ?_⟩
        simp [rulesetViolating, hd, hc]
      · have h2 : ∃ p ∈ rest, rulesetViolating p.1 p.2 = true := by
          rcases h with ⟨p, hmem, hviol⟩
          rcases List.mem_cons.mp hmem with rfl | hm2
          · exfalso
            simp [rulesetViolating, hd] at hviol
            simp [hviol.1, hviol.2] at hc
          · exact ⟨p, hm2, hviol⟩
        rcases ih h2 with ⟨nm, herr, v, hmem, hviol⟩
        exact ⟨nm, by simp [rulesetCheckMembers, hd, hc, herr],
          v, List.mem_cons_of_mem _ hmem, hviol⟩

/-- C7: declaring a Ruleset subclass with at least one receiver-dependent
callable member under a non-reserved name always aborts the declaration
with the non-static-member `TypeError` naming the class and such a
member, so no class object — and a fortiori no instance — is produced. -/
theorem c7_ruleset_nonstatic_rejected (clsName : String)
    (members : List (String × MemberValue))
    (h : ∃ p ∈ members, rulesetViolating p.1 p.2 = true) :
    ∃ nm, declareRulesetSubclass clsName members =
        Except.error (PSError.nonStaticMethodTypeError clsName nm) ∧
      ∃ v, (nm, v) ∈ members ∧ rulesetViolating nm v = true := by
  rcases rulesetCheckMembers_error clsName members h with ⟨nm, herr, v, hmem, hviol⟩
  exact ⟨nm, by simp [declareRulesetSubclass, herr], v, hmem, hviol⟩

/-- The member list of a Ruleset subclass declaring one static and one
plain (receiver-dependent) function. -/
def rogueRulesetMembers : List (String × MemberValue) :=
  [("good_rule", MemberValue.staticMethodVal),
   ("rogue_rule", MemberValue.plainFunctionVal)]

/-- Witness for C7 at a concrete Ruleset declaration. -/
theorem c7_ruleset_nonstatic_rejected_witness :
    ∃ nm, declareRulesetSubclass "MyRules" rogueRulesetMembers =
        Except.error (PSError.nonStaticMethodTypeError "MyRules" nm) ∧
      ∃ v, (nm, v) ∈ rogueRulesetMembers ∧ rulesetViolating nm v = true :=
  c7_ruleset_nonstatic_rejected "MyRules" rogueRulesetMembers
    ⟨("rogue_rule", MemberValue.plainFunctionVal), by decide, by decide⟩

/-- C6 counterexample: a callable member whose name merely begins with an
underscore does not make the declaration fail — the check skips all
underscore-prefixed names, so the declaration succeeds even though the
member is callable and carries none of the three exemptions and is not a
provider slot. -/
theorem c6_underscore_callable_counterexample :
    declareEntitySubclass "E" [("_helper", MemberValue.plainFunctionVal)] =
      Except.ok ⟨"E", [("_helper", MemberValue.plainFunctionVal)]⟩ ∧
    isCallableMember MemberValue.plainFunctionVal = true ∧
    isPureShellMethodInstance MemberValue.plainFunctionVal = false ∧
    hasSideEffectTag MemberValue.plainFunctionVal = false ∧
    isPropertyInstance MemberValue.plainFunctionVal = false ∧
    "_helper" ≠ "_rules" ∧ "_helper" ≠ "_instance_rules" :=
  ⟨rfl, rfl, rfl, rfl, rfl, by decide, by decide⟩

/-- The StatefulEntity check fails, with the error naming the class and
some unexempted callable member, whenever such a member exists. -/
theorem entityCheckMembers_error (clsName : String)
    (members : List (String × MemberValue))
    (h : ∃ p ∈ members, entityViolating p.1 p.2 = true) :
    ∃ nm, entityCheckMembers clsName members =
        Except.error (PSError.implementedMethodTypeError clsName nm) ∧
      ∃ v, (nm, v) ∈ members ∧ entityViolating nm v = true := by
  induction members with
  | nil => simp at h
  | cons p rest ih =>
    obtain ⟨nm0, v0⟩ := p
    by_cases hviol0 : entityViolating nm0 v0 = true
    · have hres : reservedEntityName nm0 = false := by
        rcases Bool.and_eq_true_iff.mp hviol0 with ⟨h1, _⟩
        rcases Bool.and_eq_true_iff.mp h1 with ⟨h2, _⟩
        rcases Bool.and_eq_true_iff.mp h2 with ⟨h3, _⟩
        rcases Bool.and_eq_true_iff.mp h3 with ⟨h4, _⟩
        simpa using h4
      have h1 := Bool.and_eq_true_iff.mp hviol0
      have h2 := Bool.and_eq_true_iff.mp h1.1
      have h3 := Bool.and_eq_true_iff.mp h2.1
      have h4 := Bool.and_eq_true_iff.mp h3.1
      refine ⟨nm0, ?_, v0, List.mem_cons_self _ _, hviol0⟩
      simp [entityCheckMembers, hres]
      simp only [Bool.not_eq_true'] at h4 h3 h2
      simp [h4.2, h3.2, h2.2, h1.2]
    · have h2 : ∃ p ∈ rest, entityViolating p.1 p.2 = true := by
        rcases h with ⟨p, hmem, hviol⟩
        rcases List.mem_cons.mp hmem with rfl | hm2
        · exact absurd hviol hviol0
        · exact ⟨p, hm2, hviol⟩
      rcases ih h2 with ⟨nm, herr, v, hmem, hviol⟩
      refine ⟨nm, ?_, v, List.mem_cons_of_mem _ hmem, hviol⟩
      by_cases hr : reservedEntityName nm0
      · simp [entityCheckMembers, hr, herr]
      · by_cases hpsm : isPureShellMethodInstance v0
        · simp [entityCheckMembers, hr, hpsm, herr]
        · by_cases hse : hasSideEffectTag v0
          · simp [entityCheckMembers, hr, hpsm, hse, herr]
          · by_cases hpr : isPropertyInstance v0
            · simp [entityCheckMembers, hr, hpsm, hse, hpr, herr]
            · have hcall : isCallableMember v0 = false := by
                by_contra hcc
                apply hviol0
                simp [entityViolating, hr, hpsm, hse, hpr,
                  Bool.not_eq_false] at hcc ⊢
                exact hcc
              simp [entityCheckMembers, hr, hpsm, hse, hpr, hcall, herr]

/-- C6 amended: a callable member under a non-reserved name (one not
starting with an underscore and not a provider slot) that is neither a
declared Method Binding, nor tagged side-effecting, nor a property,
makes the StatefulEntity declaration fail with the unauthorized-logic
`TypeError` naming the class and such a member; underscore-prefixed
callables, however, are skipped by the check. -/
theorem c6_entity_unauthorized_logic (clsName : String)
    (members : List (String × MemberValue))
    (h : ∃ p ∈ members, entityViolating p.1 p.2 = true) :
    ∃ nm, declareEntitySubclass clsName members =
        Except.error (PSError.implementedMethodTypeError clsName nm) ∧
      ∃ v, (nm, v) ∈ members ∧ entityViolating nm v = true := by
  rcases entityCheckMembers_error clsName members h with ⟨nm, herr, v, hmem, hviol⟩
  exact ⟨nm, by simp [declareEntitySubclass, herr], v, hmem, hviol⟩

/-- The member list of a StatefulEntity subclass declaring a binding, a
data member and one undecorated plain method. -/
def rogueEntityMembers : List (String × MemberValue) :=
  [("add_item", MemberValue.pureShellMethodVal),
   ("count", MemberValue.dataVal),
   ("compute", MemberValue.plainFunctionVal)]

/-- Witness for C6 at a concrete StatefulEntity declaration. -/
theorem c6_entity_unauthorized_logic_witness :
    ∃ nm, declareEntitySubclass "Cart" rogueEntityMembers =
        Except.error (PSError.implementedMethodTypeError "Cart" nm) ∧
      ∃ v, (nm, v) ∈ rogueEntityMembers ∧ entityViolating nm v = true :=
  c6_entity_unauthorized_logic "Cart" rogueEntityMembers
    ⟨("compute", MemberValue.plainFunctionVal), by decide, by decide⟩

/-- Folding `setattr` over pairs whose keys avoid `nm` leaves attribute
`nm` unchanged. -/
theorem getattr_foldl_setattr_notmem (kvs : List (String × Value)) (e : Entity)
    (nm : String) (h : nm ∉ kvs.map Prod.fst) :
    (kvs.foldl (fun acc kv => acc.setattr kv.1 kv.2) e).getattr nm =
      e.getattr nm := by
  induction kvs generalizing e with
  | nil => rfl
  | cons kv rest ih =>
    simp only [List.map_cons, List.mem_cons, not_or] at h
    rw [List.foldl_cons, ih _ h.2]
    exact Entity.getattr_setattr_ne e kv.1 nm kv.2 h.1

/-- Folding `setattr` over pairs with pairwise-distinct keys records each
pair: reading any of the keys afterwards gives its value. -/
theorem getattr_foldl_setattr_mem (kvs : List (String × Value)) (e : Entity)
    (hnd : (kvs.map Prod.fst).Nodup) (kv : String × Value) (hmem : kv ∈ kvs) :
    (kvs.foldl (fun acc p => acc.setattr p.1 p.2) e).getattr kv.1 =
      some kv.2 := by
  induction kvs generalizing e with
  | nil => cases hmem
  | cons hd rest ih =>
    simp only [List.map_cons, List.nodup_cons] at hnd
    rw [List.foldl_cons]
    rcases List.mem_cons.mp hmem with rfl | hmem2
    · rw [getattr_foldl_setattr_notmem rest _ kv.1 hnd.1]
      exact lookupAttr_setAttrList_self e.attrs kv.1 kv.2
    · exact ih _ hnd.2 hmem2

/-- Folding `setattr` leaves the instance-level provider slot unchanged. -/
theorem instanceRules_foldl_setattr (kvs : List (String × Value)) (e : Entity) :
    (kvs.foldl (fun acc p => acc.setattr p.1 p.2) e).instanceRules =
      e.instanceRules := by
  induction kvs generalizing e with
  | nil => rfl
  | cons hd rest ih => rw [List.foldl_cons]; exact ih _

/-- C10: constructing a StatefulEntity records every key/value pair of
the `initial_state` dictionary (modelled with pairwise-distinct keys, as
in a dict) as an instance attribute of that name, and sets no attribute
when `initial_state` is omitted; a `ruleset_instance` passed at
construction is installed as the instance-level provider override, and
omitting it leaves the override unset (`None`). -/
theorem c10_entity_init (clsName : String) (classRules : Option RulesProvider)
    (st : Option (List (String × Value))) (ri : Option RulesProvider) :
    (∀ kvs, st = some kvs → (kvs.map Prod.fst).Nodup →
      ∀ kv ∈ kvs,
        (statefulEntityInit clsName classRules st ri).getattr kv.1 =
          some kv.2) ∧
    (st = none → (statefulEntityInit clsName classRules st ri).attrs = []) ∧
    (∀ r, ri = some r →
      (statefulEntityInit clsName classRules st ri).instanceRules = some r) ∧
    (ri = none →
      (statefulEntityInit clsName classRules st ri).instanceRules = none) := by
  refine ⟨?_, ?_, ?_, ?_⟩
  · intro kvs hst hnd kv hmem
    subst hst
    cases ri with
    | some r =>
      exact getattr_foldl_setattr_mem kvs
        ⟨clsName, [], none, classRules⟩ hnd kv hmem
    | none =>
      exact getattr_foldl_setattr_mem kvs
        ⟨clsName, [], none, classRules⟩ hnd kv hmem
  · intro hst
    subst hst
    cases ri <;> rfl
  · intro r hri
    subst hri
    rfl
  · intro hri
    subst hri
    cases st with
    | some kvs =>
      exact instanceRules_foldl_setattr kvs ⟨clsName, [], none, classRules⟩
    | none => rfl

/-- Witness for C10 at a concrete construction: two initial attributes
are both readable back, a provider passed at construction is installed,
and omitting both arguments yields no attributes and no override. -/
theorem c10_entity_init_witness :
    (statefulEntityInit "E" none
        (some [("x", Value.vint 1), ("y", Value.vint 5)])
        (some instProv)).getattr "y" = some (Value.vint 5) ∧
    (statefulEntityInit "E" none
        (some [("x", Value.vint 1), ("y", Value.vint 5)])
        (some instProv)).instanceRules = some instProv ∧
    (statefulEntityInit "E" none none none).attrs = [] ∧
    (statefulEntityInit "E" none none none).instanceRules = none :=
  ⟨(c10_entity_init "E" none (some [("x", Value.vint 1), ("y", Value.vint 5)])
      (some instProv)).1 [("x", Value.vint 1), ("y", Value.vint 5)] rfl
      (by simp) ("y", Value.vint 5) (by simp),
   (c10_entity_init "E" none (some [("x", Value.vint 1), ("y", Value.vint 5)])
      (some instProv)).2.2.1 instProv rfl,
   (c10_entity_init "E" none none none).2.1 rfl,
   (c10_entity_init "E" none none none).2.2.2 rfl⟩

end PureShell
